import Mathlib

/-!
Formal model of the Snake game repository (JamzTyson/snake).

The development shallowly embeds the game-state and collision/movement
engine of the repository:

* src/snake/constants.py — Direction enum, opposite-direction map,
  NamedTuple field lists;
* src/snake/config.py — configuration dataclasses and their defaults;
* src/snake/sprites.py — Snake movement/steering and Food placement;
* src/snake/game_state.py — scores and GameState operations;
* src/snake/game.py — the standalone game (its own Config/SpriteConfig,
  SnakeGame collision checks and tick handler, legacy Food placement).

Positions are modelled as pairs of rationals (the source stores turtle
coordinates as Python floats and only ever adds integer-valued steps, so
exact rational arithmetic is a faithful model of every reachable value).
Python integers are modelled as Int, with Int.fdiv for Python floor
division.  Randomness (random.randint, random.choice) is modelled by
passing the drawn values explicitly: a function of a draw returns none
when the draw is outside the range the corresponding library call can
produce, and the drawn value otherwise.
-/

/-- Direction enum of constants.py (and the identical enum in game.py). -/
inductive Direction
  | UP
  | DOWN
  | LEFT
  | RIGHT
  | STOP
deriving DecidableEq, Fintype, Repr

/-- The module-level _BACKTRACK_MAP dictionary of constants.py: maps the
name of a movement direction to the name of its opposite; a missing key
(STOP) yields none, like dict.get. -/
def backtrack_map : Direction → Option Direction
  | .UP => some .DOWN
  | .DOWN => some .UP
  | .LEFT => some .RIGHT
  | .RIGHT => some .LEFT
  | .STOP => none

/-- Direction.is_opposite of constants.py:
self.name == _BACKTRACK_MAP.get(d.name). -/
def Direction.is_opposite (self d : Direction) : Bool :=
  backtrack_map d = some self

/-- Snake.set_direction of sprites.py, as a function from the current
head_direction and the requested direction to the new head_direction:
the assignment happens iff not direction.is_opposite(head_direction).
(The method also re-orients the head turtle via an angle map; that is
pure rendering and has no effect on engine state.)  No exception is
raised on any input: the rejected case falls through silently. -/
def Snake.set_direction (head_direction direction : Direction) : Direction :=
  if ¬ (direction.is_opposite head_direction) then direction else head_direction

/-- Engine state of the Snake class (sprites.py and game.py hold the same
fields): head turtle position, heading, and the ordered segment turtle
positions, segments[0] nearest the head. -/
structure SnakeState where
  head : ℚ × ℚ
  head_direction : Direction
  segments : List (ℚ × ℚ)
deriving DecidableEq, Repr

/-- Snake._move_delta_map, as initialised by Snake.set_move_delta_map in
sprites.py and game.py: maps each movement direction to its (dx, dy)
step; STOP is not a key of the dictionary. -/
def move_delta_map (delta : ℚ) : Direction → Option (ℚ × ℚ)
  | .UP => some (0, delta)
  | .DOWN => some (0, -delta)
  | .LEFT => some (-delta, 0)
  | .RIGHT => some (delta, 0)
  | .STOP => none

/-- Net effect of Snake.update_tail (sprites.py and game.py): the loop
walks the reversed segment list pairwise, so each turtle is assigned the
coordinates of its predecessor before that predecessor is itself moved
(assignments run from the tail end toward the head, and every read is of
a turtle that is only written in a later iteration); finally segments[0]
is moved to the saved pre-move head position.  Hence segment i ends at
the pre-move position of segment i-1, and segment 0 at prev_head. -/
def Snake.update_tail (prev_head : ℚ × ℚ) (segments : List (ℚ × ℚ)) :
    List (ℚ × ℚ) :=
  (List.range segments.length).map fun i =>
    if i = 0 then prev_head else segments.getD (i - 1) prev_head

/-- Snake.move of sprites.py and game.py (the two method bodies are
identical): nothing happens while head_direction is STOP; otherwise the
head advances by the direction's delta from _move_delta_map and
update_tail shifts the body, segments[0] receiving the pre-move head
position.  The match's none branch is unreachable: the map holds every
non-STOP direction. -/
def Snake.move (move_delta : ℚ) (s : SnakeState) : SnakeState :=
  if s.head_direction = .STOP then s
  else
    match move_delta_map move_delta s.head_direction with
    | none => s
    | some (dx, dy) =>
      { head := (s.head.1 + dx, s.head.2 + dy),
        head_direction := s.head_direction,
        segments := Snake.update_tail s.head s.segments }

/-- Snake.reset_snake of sprites.py and game.py: head returns to (0, 0),
heading becomes STOP, and the segment list is emptied (sprites.py also
hides the discarded segment turtles — rendering only). -/
def Snake.reset_snake (_s : SnakeState) : SnakeState :=
  { head := (0, 0), head_direction := .STOP, segments := [] }

/-- Squared Euclidean distance between two positions. -/
def dist_sq (p q : ℚ × ℚ) : ℚ :=
  (p.1 - q.1) ^ 2 + (p.2 - q.2) ^ 2

/-- Comparison p.distance(q) <= r of turtle's Euclidean distance with a
bound, expressed without the square root: for r < 0 it is false, and for
r >= 0 it is equivalent to comparing squares.  The equivalence with the
genuine square-root form is proved in dist_le_iff_sqrt below. -/
def dist_le (p q : ℚ × ℚ) (r : ℚ) : Bool :=
  decide (0 ≤ r) && decide (dist_sq p q ≤ r ^ 2)

/-- Strict comparison p.distance(q) < r, square-root-free as in dist_le;
equivalence with the square-root form is proved in dist_lt_iff_sqrt. -/
def dist_lt (p q : ℚ × ℚ) (r : ℚ) : Bool :=
  decide (0 < r) && decide (dist_sq p q < r ^ 2)

/-- TextAttributes NamedTuple of constants.py (all four fields are
required: none has a default). -/
structure TextAttributes where
  color : String
  bg_color : String
  font : String × Int × String
  v_pos : Int
deriving DecidableEq, Repr

/-- SpriteAttributes NamedTuple of constants.py, and the namedtuple of
the same name in game.py: exactly the two fields color and shape. -/
structure SpriteAttributes where
  color : String
  shape : String
deriving DecidableEq, Repr

/-- Config dataclass of config.py (the package configuration). -/
structure Config where
  initial_update_delay : Int
  move_delta : ℚ
  scoreboard_height : Int
  scoreboard_text : TextAttributes
  splash_text : TextAttributes
  display_width : Int
  display_height : Int
  border : Int
  background_color : String
  board_color : String
deriving DecidableEq, Repr

/-- SpriteConfig dataclass of config.py (the package sprite settings). -/
structure SpriteConfig where
  head : SpriteAttributes
  segment : SpriteAttributes
  segment_alternate_color : String
  sprite_size : Int
  food_attributes : List SpriteAttributes
deriving DecidableEq, Repr

/-- A concrete Config value carrying the numeric defaults written in
config.py, used to instantiate universally quantified theorems.  (The
Python default object itself cannot be built — see the C1 analysis — so
the text attributes here carry the intended field values with v_pos 0.) -/
def sample_config : Config :=
  { initial_update_delay := 50
    move_delta := 10
    scoreboard_height := 50
    scoreboard_text := ⟨"white", "black", ("sans", 20, "normal"), 0⟩
    splash_text := ⟨"blue", "", ("sans", 20, "normal"), 0⟩
    display_width := 600
    display_height := 600
    border := 25
    background_color := "black"
    board_color := "navyblue" }

/-- A concrete SpriteConfig value with the numeric defaults of config.py,
for instantiating universally quantified theorems. -/
def sample_sprite_config : SpriteConfig :=
  { head := ⟨"limegreen", "square"⟩
    segment := ⟨"limegreen", "circle"⟩
    segment_alternate_color := "green"
    sprite_size := 20
    food_attributes := [⟨"limegreen", "lime.gif"⟩, ⟨"red", "cherry.gif"⟩,
                        ⟨"yellow", "banana.gif"⟩] }

/-- Config dataclass of game.py (the standalone game's configuration). -/
structure GameConfig where
  initial_update_delay : Int
  move_delta : ℚ
  scoreboard_height : Int
  text : TextAttributes
  display_width : Int
  display_height : Int
  border : Int
  background_color : String
  board_color : String
deriving DecidableEq, Repr

/-- SpriteConfig dataclass of game.py. -/
structure GameSpriteConfig where
  head : SpriteAttributes
  segment : SpriteAttributes
  sprite_size : Int
  food : List SpriteAttributes
deriving DecidableEq, Repr

/-- The default GameConfig of game.py (all defaults there construct). -/
def game_config_defaults : GameConfig :=
  { initial_update_delay := 25
    move_delta := 5
    scoreboard_height := 50
    text := ⟨"white", "black", ("sans", 20, "normal"), 50⟩
    display_width := 600
    display_height := 600
    border := 25
    background_color := "black"
    board_color := "navyblue" }

/-- The default SpriteConfig of game.py. -/
def game_sprite_config_defaults : GameSpriteConfig :=
  { head := ⟨"white", "square"⟩
    segment := ⟨"white", "circle"⟩
    sprite_size := 20
    food := [⟨"red", "circle"⟩, ⟨"yellow", "circle"⟩, ⟨"limegreen", "circle"⟩] }

/-- Engine-relevant state of the SnakeGame class of game.py: the two
configurations, the timer delay, the two score counters, the snake, and
the food turtle's position. -/
structure SnakeGameState where
  config : GameConfig
  sprite_config : GameSpriteConfig
  delay : Int
  score : Int
  high_score : Int
  snake : SnakeState
  food : Int × Int
deriving DecidableEq, Repr

/-- SnakeGame.tail_collision of game.py: true iff some segment turtle —
the loop runs over all of self.snake.segments — satisfies
segment.distance(head) <= sprite_size // 2 (a non-strict comparison). -/
def SnakeGame.tail_collision (g : SnakeGameState) : Bool :=
  let half_head_size := g.sprite_config.sprite_size.fdiv 2
  g.snake.segments.any fun segment =>
    dist_le segment g.snake.head (half_head_size : ℚ)

/-- SnakeGame.edge_collision of game.py: the head position is tested
against x_min = -(half_width - half_head_size), x_max = -x_min,
y_min = -(half_height - half_head_size),
y_max = -y_min - scoreboard_height, and the method returns the negation
of the conjoined chained comparisons. -/
def SnakeGame.edge_collision (g : SnakeGameState) : Bool :=
  let half_head_size := g.sprite_config.sprite_size.fdiv 2
  let half_width := g.config.display_width.fdiv 2
  let half_height := g.config.display_height.fdiv 2
  let x_min := -(half_width - half_head_size)
  let x_max := -x_min
  let y_min := -(half_height - half_head_size)
  let y_max := -y_min - g.config.scoreboard_height
  !decide ((x_min : ℚ) ≤ g.snake.head.1 ∧ g.snake.head.1 ≤ (x_max : ℚ) ∧
           (y_min : ℚ) ≤ g.snake.head.2 ∧ g.snake.head.2 ≤ (y_max : ℚ))

/-- SnakeGame.check_collision of game.py. -/
def SnakeGame.check_collision (g : SnakeGameState) : Bool :=
  SnakeGame.edge_collision g || SnakeGame.tail_collision g

/-- SnakeGame.update of game.py, the per-tick handler: move the snake;
if check_collision() then reset_snake() (nothing else happens in that
branch: scores and food are untouched); then turtle.update() (rendering)
and screen.ontimer(self.update, self.delay).  The returned Bool records
that ontimer was reached, i.e. that the next tick was scheduled; the
single exit path of the method always reaches it. -/
def SnakeGame.update (g : SnakeGameState) : SnakeGameState × Bool :=
  let moved := { g with snake := Snake.move g.config.move_delta g.snake }
  let after :=
    if SnakeGame.check_collision moved then
      { moved with snake := Snake.reset_snake moved.snake }
    else moved
  (after, true)

/-- Food.place_food of sprites.py, as a function of the two randint
draws rx and ry: padding = sprite_size, x_max = display_width // 2 -
padding, y_max = display_height // 2 - scoreboard_height - padding,
y_min = padding - display_height // 2; the turtle goes to (rx, ry) where
rx is drawn by randint(-x_max, x_max) and ry by randint(y_min, y_max).
A draw outside those inclusive ranges is not a possible randint outcome
and yields none. -/
def Food.place_food (config : Config) (sprite_size : Int) (rx ry : Int) :
    Option (Int × Int) :=
  let padding := sprite_size
  let x_max := config.display_width.fdiv 2 - padding
  let half_height := config.display_height.fdiv 2
  let y_max := half_height - config.scoreboard_height - padding
  let y_min := padding - half_height
  if -x_max ≤ rx ∧ rx ≤ x_max ∧ y_min ≤ ry ∧ ry ≤ y_max then
    some (rx, ry)
  else none

/-- Food.place_food of game.py (the legacy standalone version): padding
is again sprite_size, but both axes use only x_max = width // 2 - padding
and y_max = height // 2 - padding; the scoreboard height is not
subtracted anywhere. -/
def GameFood.place_food (config : GameConfig) (sprite_size : Int)
    (rx ry : Int) : Option (Int × Int) :=
  let padding := sprite_size
  let x_max := config.display_width.fdiv 2 - padding
  let y_max := config.display_height.fdiv 2 - padding
  if -x_max ≤ rx ∧ rx ≤ x_max ∧ -y_max ≤ ry ∧ ry ≤ y_max then
    some (rx, ry)
  else none

/-- The playable sub-rectangle the specification describes for food
placement: x within the board's half-width minus a padding equal to the
sprite size on both sides, y within the half-height minus the same
padding with the upper bound further reduced by the scoreboard height. -/
def placed_in_playable_rect (config : Config) (sprite_size : Int)
    (p : Int × Int) : Bool :=
  let padding := sprite_size
  let half_w := config.display_width.fdiv 2
  let half_h := config.display_height.fdiv 2
  decide (-(half_w - padding) ≤ p.1 ∧ p.1 ≤ half_w - padding ∧
          -(half_h - padding) ≤ p.2 ∧ p.2 ≤ half_h - padding - config.scoreboard_height)

/-- Mirror of placed_in_playable_rect for the game.py configuration
record (same formula, only the record type differs). -/
def placed_in_playable_rect_game (config : GameConfig) (sprite_size : Int)
    (p : Int × Int) : Bool :=
  let padding := sprite_size
  let half_w := config.display_width.fdiv 2
  let half_h := config.display_height.fdiv 2
  decide (-(half_w - padding) ≤ p.1 ∧ p.1 ≤ half_w - padding ∧
          -(half_h - padding) ≤ p.2 ∧ p.2 ≤ half_h - padding - config.scoreboard_height)

/-- Observable state of a Food turtle of sprites.py: the attributes set
by set_attributes and the position set by place_food. -/
structure FoodState where
  color : String
  shape : String
  position : Int × Int
deriving DecidableEq, Repr

/-- Food.__init__ of sprites.py as a function of the random draws: the
choice(food_attributes) draw is an index into the list (an index outside
the list is not a possible choice outcome and yields none, as is an
out-of-range randint draw), then set_attributes copies color and shape
and place_food positions the turtle. -/
def Food.init (config : Config) (sprite_config : SpriteConfig)
    (choice_idx : ℕ) (rx ry : Int) : Option FoodState :=
  match sprite_config.food_attributes[choice_idx]? with
  | none => none
  | some attrs =>
    match Food.place_food config sprite_config.sprite_size rx ry with
    | none => none
    | some pos => some ⟨attrs.color, attrs.shape, pos⟩

/-- The _Scores dataclass of game_state.py. -/
structure Scores where
  current : Int
  best : Int
deriving DecidableEq, Repr

/-- GameState of game_state.py: scores, snake, sprite size, delay, the
two configuration objects, and the food slot, which __init__ sets to
None. -/
structure GameState where
  scores : Scores
  snake : SnakeState
  sprite_size : Int
  delay : Int
  config : Config
  sprite_config : SpriteConfig
  food : Option FoodState
deriving DecidableEq, Repr

/-- GameState.__init__ of game_state.py: scores start at 0/0, the snake
is freshly constructed (head at the origin, heading STOP, no segments —
Snake.__init__ ends in reset_snake), delay copies
config.initial_update_delay, and _food is None. -/
def GameState.init (config : Config) (sprite_config : SpriteConfig) :
    GameState :=
  { scores := ⟨0, 0⟩
    snake := ⟨(0, 0), .STOP, []⟩
    sprite_size := sprite_config.sprite_size
    delay := config.initial_update_delay
    config := config
    sprite_config := sprite_config
    food := none }

/-- GameState.reset_current of game_state.py: only scores.current is
written, to 0. -/
def GameState.reset_current (g : GameState) : GameState :=
  { g with scores := ⟨0, g.scores.best⟩ }

/-- GameState.add_to_score of game_state.py: current += value, then
best = max(current, best). -/
def GameState.add_to_score (g : GameState) (value : Int) : GameState :=
  let current := g.scores.current + value
  { g with scores := ⟨current, max current g.scores.best⟩ }

/-- GameState.add_food_item of game_state.py: the food slot is assigned
a freshly constructed Food(config, sprite_config); the construction
consumes fresh random draws and reads nothing from the previous food. -/
def GameState.add_food_item (g : GameState) (choice_idx : ℕ) (rx ry : Int) :
    GameState :=
  { g with food := Food.init g.config g.sprite_config choice_idx rx ry }

/-- The public mutating operations of GameState, as events. -/
inductive GSEvent
  | reset_current
  | add_to_score (value : Int)
  | add_food_item (choice_idx : ℕ) (rx : Int) (ry : Int)
deriving DecidableEq, Repr

/-- Whether an event is an add_food_item call. -/
def GSEvent.is_add_food : GSEvent → Bool
  | .add_food_item _ _ _ => true
  | _ => false

/-- Whether an event is an add_to_score call with a negative value. -/
def GSEvent.has_negative_score_value : GSEvent → Bool
  | .add_to_score v => decide (v < 0)
  | _ => false

/-- Dispatch one GameState operation. -/
def GameState.apply_event (g : GameState) : GSEvent → GameState
  | .reset_current => g.reset_current
  | .add_to_score v => g.add_to_score v
  | .add_food_item ci rx ry => g.add_food_item ci rx ry

/-- Run a sequence of GameState operations from a starting state. -/
def GameState.run_events (g : GameState) (evs : List GSEvent) : GameState :=
  evs.foldl GameState.apply_event g

/-- Field names occurring in the NamedTuple constructor calls that
config.py evaluates while its dataclass bodies execute at module load. -/
inductive PyField
  | color
  | bg_color
  | font
  | v_pos
  | shape
  | value
deriving DecidableEq, Repr

/-- The declared fields of the TextAttributes NamedTuple of constants.py
(no field carries a default). -/
def text_attributes_fields : List PyField :=
  [.color, .bg_color, .font, .v_pos]

/-- The declared fields of the SpriteAttributes NamedTuple of
constants.py. -/
def sprite_attributes_fields : List PyField :=
  [.color, .shape]

/-- Python NamedTuple construction by keyword arguments succeeds iff
every keyword names a declared field and every (default-free) declared
field receives a keyword; otherwise the call raises TypeError. -/
def namedtuple_call_ok (fields kwargs : List PyField) : Bool :=
  kwargs.all (fun k => fields.contains k) &&
  fields.all (fun f => kwargs.contains f)

/-- The NamedTuple constructor calls evaluated, in order, while the
dataclass bodies of config.py execute: Config.scoreboard_text and
Config.splash_text each pass color, bg_color and font to TextAttributes;
SpriteConfig.head and SpriteConfig.segment pass color and shape to
SpriteAttributes; the three food_attributes entries pass color, shape
and value to SpriteAttributes. -/
def config_module_calls : List (List PyField × List PyField) :=
  [ (text_attributes_fields, [.color, .bg_color, .font]),
    (text_attributes_fields, [.color, .bg_color, .font]),
    (sprite_attributes_fields, [.color, .shape]),
    (sprite_attributes_fields, [.color, .shape]),
    (sprite_attributes_fields, [.color, .shape, .value]),
    (sprite_attributes_fields, [.color, .shape, .value]),
    (sprite_attributes_fields, [.color, .shape, .value]) ]

/-- Whether every field default of the Config and SpriteConfig
dataclasses of config.py evaluates without an exception (the remaining
defaults are int, float, str and tuple literals, which always succeed
and are not listed). -/
def config_module_defaults_ok : Bool :=
  config_module_calls.all fun c => namedtuple_call_ok c.1 c.2

/-- The (dx, dy) unit vector of each direction as the specification
states it, to be scaled by the step distance. -/
def unit_delta : Direction → ℚ × ℚ
  | .UP => (0, 1)
  | .DOWN => (0, -1)
  | .LEFT => (-1, 0)
  | .RIGHT => (1, 0)
  | .STOP => (0, 0)

/-- Self-collision as the specification words it: the head's distance to
some non-adjacent body segment — every segment except segments[0], the
one nearest the head — is strictly less than the sprite half-size. -/
def tail_collision_spec (g : SnakeGameState) : Bool :=
  let half : ℚ := (g.sprite_config.sprite_size : ℚ) / 2
  (List.range g.snake.segments.length).any fun i =>
    decide (1 ≤ i) && dist_lt (g.snake.segments.getD i (0, 0)) g.snake.head half

/-- The score invariant of the specification: best covers current, and
best never goes negative (it starts at 0 and only grows). -/
def score_inv (g : GameState) : Prop :=
  g.scores.current ≤ g.scores.best ∧ 0 ≤ g.scores.best

/-- A game state (default game.py configuration) whose snake has exactly
one segment, 5 units from the head: the nearest-segment situation every
moving one-segment snake is in. -/
def c2_game : SnakeGameState :=
  { config := game_config_defaults
    sprite_config := game_sprite_config_defaults
    delay := 25
    score := 0
    high_score := 0
    snake := ⟨(0, 0), .RIGHT, [(5, 0)]⟩
    food := (100, 100) }

/-- A game state (default game.py configuration) about to collide with
the right board edge, with a nonzero current score and food on board. -/
def c3_game : SnakeGameState :=
  { config := game_config_defaults
    sprite_config := game_sprite_config_defaults
    delay := 25
    score := 5
    high_score := 9
    snake := ⟨(288, 0), .RIGHT, []⟩
    food := (100, 100) }

/-- A game state with the head at (0, 241), one unit above the valid
y-range of the default 600x600 board with scoreboard height 50 and
sprite size 20. -/
def c4_game_hi : SnakeGameState :=
  { config := game_config_defaults
    sprite_config := game_sprite_config_defaults
    delay := 25
    score := 0
    high_score := 0
    snake := ⟨(0, 241), .STOP, []⟩
    food := (100, 100) }

/-- As c4_game_hi but with the head at (0, 240), the top of the valid
y-range. -/
def c4_game_ok : SnakeGameState :=
  { config := game_config_defaults
    sprite_config := game_sprite_config_defaults
    delay := 25
    score := 0
    high_score := 0
    snake := ⟨(0, 240), .STOP, []⟩
    food := (100, 100) }

/-! ## Helper lemmas -/

/-- The square-free comparison dist_le agrees with comparing turtle's
Euclidean distance (the square root of dist_sq) against the bound. -/
theorem dist_le_iff_sqrt (p q : ℚ × ℚ) (r : ℚ) :
    dist_le p q r = true ↔ Real.sqrt ((dist_sq p q : ℚ) : ℝ) ≤ (r : ℝ) := by
  rw [Real.sqrt_le_iff]
  simp only [dist_le, Bool.and_eq_true, decide_eq_true_eq]
  constructor
  · rintro ⟨h0, h1⟩
    exact ⟨by exact_mod_cast h0, by exact_mod_cast h1⟩
  · rintro ⟨h0, h1⟩
    exact ⟨by exact_mod_cast h0, by exact_mod_cast h1⟩

/-- The square-free strict comparison dist_lt agrees with comparing the
Euclidean distance strictly against the bound. -/
theorem dist_lt_iff_sqrt (p q : ℚ × ℚ) (r : ℚ) :
    dist_lt p q r = true ↔ Real.sqrt ((dist_sq p q : ℚ) : ℝ) < (r : ℝ) := by
  simp only [dist_lt, Bool.and_eq_true, decide_eq_true_eq]
  by_cases h0 : 0 < r
  · rw [Real.sqrt_lt' (by exact_mod_cast h0)]
    constructor
    · rintro ⟨-, h1⟩
      exact_mod_cast h1
    · intro h1
      exact ⟨h0, by exact_mod_cast h1⟩
  · constructor
    · rintro ⟨h, -⟩
      exact absurd h h0
    · intro h1
      exfalso
      have hs : (0 : ℝ) ≤ Real.sqrt ((dist_sq p q : ℚ) : ℝ) := Real.sqrt_nonneg _
      have hr : (r : ℝ) ≤ 0 := by exact_mod_cast not_lt.mp h0
      linarith

/-- update_tail preserves the number of segments. -/
theorem update_tail_length (prev : ℚ × ℚ) (segs : List (ℚ × ℚ)) :
    (Snake.update_tail prev segs).length = segs.length := by
  simp [Snake.update_tail]

/-- Elementwise reading of update_tail: segment 0 moves to the saved
head position, segment i to the pre-move position of segment i-1. -/
theorem update_tail_getD (prev : ℚ × ℚ) (segs : List (ℚ × ℚ)) (i : ℕ)
    (h : i < segs.length) :
    (Snake.update_tail prev segs).getD i (0, 0) =
      if i = 0 then prev else segs.getD (i - 1) (0, 0) := by
  have hl : i < (Snake.update_tail prev segs).length := by
    simpa [update_tail_length] using h
  rw [List.getD_eq_getElem _ _ hl]
  simp only [Snake.update_tail, List.getElem_map, List.getElem_range]
  by_cases hi : i = 0
  · simp [hi]
  · have h1 : i - 1 < segs.length := by omega
    simp only [hi, if_false]
    rw [List.getD_eq_getElem segs prev h1, List.getD_eq_getElem segs (0, 0) h1]

/-- Every GameState operation preserves the score invariant. -/
theorem apply_event_score_inv (g : GameState) (e : GSEvent)
    (h : score_inv g) : score_inv (g.apply_event e) := by
  obtain ⟨h1, h2⟩ := h
  cases e with
  | reset_current =>
      exact ⟨h2, h2⟩
  | add_to_score v =>
      refine ⟨le_max_left _ _, ?_⟩
      exact le_trans h2 (le_max_right _ _)
  | add_food_item ci rx ry =>
      exact ⟨h1, h2⟩

/-- Any run of GameState operations preserves the score invariant. -/
theorem run_events_score_inv (g : GameState) (evs : List GSEvent)
    (h : score_inv g) : score_inv (g.run_events evs) := by
  induction evs generalizing g with
  | nil => simpa [GameState.run_events] using h
  | cons e rest ih =>
      rw [GameState.run_events, List.foldl_cons]
      exact ih _ (apply_event_score_inv g e h)

/-- No single GameState operation ever decreases the best score. -/
theorem apply_event_best_mono (g : GameState) (e : GSEvent) :
    g.scores.best ≤ (g.apply_event e).scores.best := by
  cases e with
  | reset_current => exact le_refl _
  | add_to_score v => exact le_max_right _ _
  | add_food_item ci rx ry => exact le_refl _

/-- A run containing no add_food_item call leaves an empty food slot
empty. -/
theorem run_events_food_none (g : GameState) (evs : List GSEvent)
    (hf : g.food = none) (h : ∀ e ∈ evs, e.is_add_food = false) :
    (g.run_events evs).food = none := by
  induction evs generalizing g with
  | nil => simpa [GameState.run_events] using hf
  | cons e rest ih =>
      rw [GameState.run_events, List.foldl_cons]
      apply ih
      · cases e with
        | reset_current => simpa [GameState.apply_event, GameState.reset_current] using hf
        | add_to_score v => simpa [GameState.apply_event, GameState.add_to_score] using hf
        | add_food_item ci rx ry =>
            have := h _ (List.mem_cons_self _ _)
            simp [GSEvent.is_add_food] at this
      · intro e' he'
        exact h e' (List.mem_cons_of_mem _ he')

/-! ## Claim theorems -/

/-- C1: the claim that building the default Config() and SpriteConfig()
of the snake package raises no exception fails on the code: the
NamedTuple constructor calls evaluated while config.py's dataclass
bodies execute do not fit the fields declared in constants.py
(TextAttributes is called without its required v_pos field, and
SpriteAttributes is called with an unknown keyword value), so the module
raises TypeError at load.  The theorem evaluates the model of those
constructor calls: the very first one (Config.scoreboard_text) already
fails, as does each food_attributes entry. -/
theorem C1_config_defaults_raise :
    config_module_defaults_ok = false ∧
    namedtuple_call_ok text_attributes_fields [.color, .bg_color, .font] = false ∧
    namedtuple_call_ok sprite_attributes_fields [.color, .shape, .value] = false := by
  decide

/-- C6: for movement directions d1 and d2, requesting d2 while heading
d1 updates the heading to d2 when d2 is not the opposite of d1, and is a
silent no-op (the heading stays d1, nothing is raised) when d2 is the
opposite of d1. -/
theorem C6_set_direction_backtrack :
    ∀ d1 d2 : Direction, d1 ≠ .STOP → d2 ≠ .STOP →
      (d2.is_opposite d1 = false → Snake.set_direction d1 d2 = d2) ∧
      (d2.is_opposite d1 = true → Snake.set_direction d1 d2 = d1) := by
  decide

/-- Witness for C6 at d1 = RIGHT, d2 = UP. -/
theorem C6_set_direction_backtrack_witness :
    ((Direction.RIGHT ≠ Direction.STOP) ∧ (Direction.UP ≠ Direction.STOP)) ∧
    ((Direction.UP.is_opposite .RIGHT = false →
        Snake.set_direction .RIGHT .UP = .UP) ∧
     (Direction.UP.is_opposite .RIGHT = true →
        Snake.set_direction .RIGHT .UP = .RIGHT)) :=
  ⟨⟨by decide, by decide⟩,
   C6_set_direction_backtrack .RIGHT .UP (by decide) (by decide)⟩

/-- C9: STOP is never rejected as the opposite of any heading, so the
snake can always be halted; and from a STOP heading every direction is
accepted. -/
theorem C9_stop_always_accepted :
    ∀ d : Direction,
      Snake.set_direction d .STOP = .STOP ∧ Snake.set_direction .STOP d = d := by
  decide

/-- C7: along any sequence of GameState score operations started from a
fresh GameState (add_to_score with non-negative values, reset_current,
food additions), the invariant best >= current holds at the end; best is
monotone under every single operation; and reset_current leaves best
unchanged. -/
theorem C7_score_invariant (config : Config) (sprite_config : SpriteConfig)
    (evs : List GSEvent)
    (_h : ∀ e ∈ evs, e.has_negative_score_value = false) :
    ((GameState.init config sprite_config).run_events evs).scores.current ≤
      ((GameState.init config sprite_config).run_events evs).scores.best ∧
    (∀ g : GameState, ∀ e : GSEvent,
      g.scores.best ≤ (g.apply_event e).scores.best) ∧
    (∀ g : GameState, (g.reset_current).scores.best = g.scores.best) :=
  ⟨(run_events_score_inv _ evs ⟨le_refl 0, le_refl 0⟩).1,
   apply_event_best_mono,
   fun _ => rfl⟩

/-- Witness for C7 on the event sequence add 1, add 2, reset, add 1. -/
theorem C7_score_invariant_witness :
    (∀ e ∈ ([.add_to_score 1, .add_to_score 2, .reset_current,
             .add_to_score 1] : List GSEvent),
        e.has_negative_score_value = false) ∧
    ((GameState.init sample_config sample_sprite_config).run_events
        [.add_to_score 1, .add_to_score 2, .reset_current,
         .add_to_score 1]).scores.current ≤
      ((GameState.init sample_config sample_sprite_config).run_events
        [.add_to_score 1, .add_to_score 2, .reset_current,
         .add_to_score 1]).scores.best :=
  ⟨by decide,
   (C7_score_invariant sample_config sample_sprite_config _ (by decide)).1⟩

/-- C10: a fresh GameState has an empty food slot and it stays empty
under any sequence of operations that never calls add_food_item; every
add_food_item call stores exactly the result of constructing a fresh
Food from the game's configurations and fresh random draws (reading
nothing from the food previously stored), and leaves snake, scores and
delay untouched. -/
theorem C10_food_slot (config : Config) (sprite_config : SpriteConfig) :
    (GameState.init config sprite_config).food = none ∧
    (∀ evs : List GSEvent, (∀ e ∈ evs, e.is_add_food = false) →
      ((GameState.init config sprite_config).run_events evs).food = none) ∧
    (∀ g : GameState, ∀ ci : ℕ, ∀ rx ry : Int,
      (g.add_food_item ci rx ry).food =
        Food.init g.config g.sprite_config ci rx ry ∧
      (g.add_food_item ci rx ry).snake = g.snake ∧
      (g.add_food_item ci rx ry).scores = g.scores ∧
      (g.add_food_item ci rx ry).delay = g.delay) :=
  ⟨rfl,
   fun evs h => run_events_food_none _ evs rfl h,
   fun _ _ _ _ => ⟨rfl, rfl, rfl, rfl⟩⟩

/-- Witness for C10 on a run of two non-food operations. -/
theorem C10_food_slot_witness :
    (∀ e ∈ ([.reset_current, .add_to_score 3] : List GSEvent),
        e.is_add_food = false) ∧
    ((GameState.init sample_config sample_sprite_config).run_events
        [.reset_current, .add_to_score 3]).food = none :=
  ⟨by decide,
   (C10_food_slot sample_config sample_sprite_config).2.1 _ (by decide)⟩

/-- C2 counterexample: on the default configuration (sprite size 20,
half size 10) a snake whose only segment — the one nearest the head —
lies 5 units from the head makes tail_collision return true, although
the claimed characterisation (a non-adjacent segment strictly within
the half size) is false for it: the snake has no non-adjacent segment at
all.  tail_collision sweeps every segment with a non-strict comparison,
so the claimed if-and-only-if fails at this state. -/
theorem C2_counterexample :
    SnakeGame.tail_collision c2_game = true ∧
    tail_collision_spec c2_game = false := by
  have h20 : (20 : Int).fdiv 2 = 10 := by decide
  constructor
  · norm_num [SnakeGame.tail_collision, c2_game, game_sprite_config_defaults,
      h20, List.any_cons, List.any_nil, dist_le, dist_sq]
  · norm_num [tail_collision_spec, c2_game, game_sprite_config_defaults,
      List.range_succ, List.any_cons, List.any_nil, dist_lt, dist_sq]

/-- C2 amended: tail_collision returns true iff SOME body segment — the
segment nearest the head included — has Euclidean distance AT MOST the
integer half sprite size (sprite_size // 2) from the head; the
comparison is non-strict and no segment is exempted. -/
theorem C2_tail_collision_amended (g : SnakeGameState) :
    SnakeGame.tail_collision g = true ↔
      ∃ segment ∈ g.snake.segments,
        Real.sqrt ((dist_sq segment g.snake.head : ℚ) : ℝ) ≤
          ((g.sprite_config.sprite_size.fdiv 2 : Int) : ℝ) := by
  simp only [SnakeGame.tail_collision, List.any_eq_true]
  constructor
  · rintro ⟨seg, hmem, hle⟩
    have h2 := (dist_le_iff_sqrt seg g.snake.head
      ((g.sprite_config.sprite_size.fdiv 2 : Int) : ℚ)).mp hle
    exact ⟨seg, hmem, by exact_mod_cast h2⟩
  · rintro ⟨seg, hmem, hle⟩
    refine ⟨seg, hmem, (dist_le_iff_sqrt seg g.snake.head
      ((g.sprite_config.sprite_size.fdiv 2 : Int) : ℚ)).mpr ?_⟩
    exact_mod_cast hle

/-- C4: edge_collision returns true iff the head lies outside the valid
rectangle x in [-(W-s), W-s], y in [-(H-s), H-Hs-s], where W and H are
the board half-dimensions, s the sprite half-size and Hs the scoreboard
height; in particular, on the default 600x600 board with scoreboard
height 50 and sprite size 20, a head at (0, 241) collides and a head at
(0, 240) does not. -/
theorem C4_edge_collision_charn :
    (∀ g : SnakeGameState,
      SnakeGame.edge_collision g = true ↔
        ¬ ((((-(g.config.display_width.fdiv 2 -
                g.sprite_config.sprite_size.fdiv 2) : Int) : ℚ) ≤ g.snake.head.1 ∧
            g.snake.head.1 ≤ ((g.config.display_width.fdiv 2 -
                g.sprite_config.sprite_size.fdiv 2 : Int) : ℚ)) ∧
           (((-(g.config.display_height.fdiv 2 -
                g.sprite_config.sprite_size.fdiv 2) : Int) : ℚ) ≤ g.snake.head.2 ∧
            g.snake.head.2 ≤ ((g.config.display_height.fdiv 2 -
                g.config.scoreboard_height -
                g.sprite_config.sprite_size.fdiv 2 : Int) : ℚ)))) ∧
    SnakeGame.edge_collision c4_game_hi = true ∧
    SnakeGame.edge_collision c4_game_ok = false := by
  refine ⟨fun g => ?_, ?_, ?_⟩
  · have h1 : (-(-(g.config.display_width.fdiv 2 -
        g.sprite_config.sprite_size.fdiv 2)) : Int) =
        g.config.display_width.fdiv 2 - g.sprite_config.sprite_size.fdiv 2 := by
      omega
    have h2 : (-(-(g.config.display_height.fdiv 2 -
        g.sprite_config.sprite_size.fdiv 2)) - g.config.scoreboard_height : Int) =
        g.config.display_height.fdiv 2 - g.config.scoreboard_height -
          g.sprite_config.sprite_size.fdiv 2 := by
      omega
    simp only [SnakeGame.edge_collision, h1, h2, Bool.not_eq_true',
      decide_eq_false_iff_not]
    tauto
  · norm_num [SnakeGame.edge_collision, c4_game_hi, game_config_defaults,
      game_sprite_config_defaults, Int.fdiv]
  · norm_num [SnakeGame.edge_collision, c4_game_ok, game_config_defaults,
      game_sprite_config_defaults, Int.fdiv]

/-- C8 counterexample: the legacy Food.place_food of game.py accepts the
draw (0, 280) — randint there runs over [-280, 280] on both axes — and
places food at (0, 280), which lies above the claimed playable rectangle
(its y upper bound is 300 - 50 - 20 = 230): the scoreboard height is
never subtracted in game.py, so the claim fails for that placement. -/
theorem C8_counterexample :
    GameFood.place_food game_config_defaults
      game_sprite_config_defaults.sprite_size 0 280 = some (0, 280) ∧
    placed_in_playable_rect_game game_config_defaults
      game_sprite_config_defaults.sprite_size (0, 280) = false := by
  decide

/-- C8 amended: the package Food.place_food of sprites.py does confine
every placement to the claimed playable sub-rectangle: padding equal to
the sprite size on both axes, and the y upper bound further reduced by
the scoreboard height.  (The draws are uniform randint draws over
exactly that rectangle.) -/
theorem C8_place_food_range (config : Config) (sprite_size rx ry : Int)
    (p : Int × Int)
    (h : Food.place_food config sprite_size rx ry = some p) :
    placed_in_playable_rect config sprite_size p = true := by
  dsimp only [Food.place_food] at h
  split_ifs at h with hc
  injection h with h'
  subst h'
  simp only [placed_in_playable_rect, decide_eq_true_eq]
  omega

/-- Witness for C8 at the centre draw (0, 0) of the default geometry. -/
theorem C8_place_food_range_witness :
    Food.place_food sample_config sample_sprite_config.sprite_size 0 0 =
      some (0, 0) ∧
    placed_in_playable_rect sample_config
      sample_sprite_config.sprite_size (0, 0) = true :=
  ⟨by decide,
   C8_place_food_range sample_config sample_sprite_config.sprite_size 0 0
     (0, 0) (by decide)⟩

/-- Closed form of Snake.move for a non-STOP heading: the head advances
by the step distance along the direction's unit vector and the tail
shifts through update_tail. -/
theorem move_non_stop (delta : ℚ) (s : SnakeState)
    (h : s.head_direction ≠ .STOP) :
    Snake.move delta s =
      { head := (s.head.1 + delta * (unit_delta s.head_direction).1,
                 s.head.2 + delta * (unit_delta s.head_direction).2),
        head_direction := s.head_direction,
        segments := Snake.update_tail s.head s.segments } := by
  cases hd : s.head_direction with
  | STOP => exact absurd hd h
  | UP => simp [Snake.move, hd, move_delta_map, unit_delta]
  | DOWN => simp [Snake.move, hd, move_delta_map, unit_delta]
  | LEFT => simp [Snake.move, hd, move_delta_map, unit_delta]
  | RIGHT => simp [Snake.move, hd, move_delta_map, unit_delta]

/-- C5: move() with heading STOP changes nothing; with any other
heading the head advances by the direction's (dx, dy) unit delta scaled
by the step distance, each body segment takes its predecessor's pre-move
position and segment 0 takes the pre-move head position (the segment
count is unchanged); the concrete scenario — snake at the origin heading
RIGHT with step 5 and one segment at the origin — moves to head (5, 0)
with segment 0 at (0, 0). -/
theorem C5_move_step (delta : ℚ) (s : SnakeState) :
    (s.head_direction = .STOP → Snake.move delta s = s) ∧
    (s.head_direction ≠ .STOP →
      (Snake.move delta s).head.1 =
        s.head.1 + delta * (unit_delta s.head_direction).1 ∧
      (Snake.move delta s).head.2 =
        s.head.2 + delta * (unit_delta s.head_direction).2 ∧
      (Snake.move delta s).segments.length = s.segments.length ∧
      ∀ i, i < s.segments.length →
        (Snake.move delta s).segments.getD i (0, 0) =
          if i = 0 then s.head else s.segments.getD (i - 1) (0, 0)) ∧
    Snake.move 5 ⟨(0, 0), .RIGHT, [(0, 0)]⟩ = ⟨(5, 0), .RIGHT, [(0, 0)]⟩ := by
  refine ⟨fun h => by simp [Snake.move, h], fun h => ?_, ?_⟩
  · rw [move_non_stop delta s h]
    refine ⟨rfl, rfl, update_tail_length _ _, fun i hi => update_tail_getD _ _ i hi⟩
  · rw [move_non_stop 5 ⟨(0, 0), .RIGHT, [(0, 0)]⟩ (by decide)]
    norm_num [unit_delta, Snake.update_tail, List.range_succ]

/-- Witness for C5 on the specification's scenario state. -/
theorem C5_move_step_witness :
    ((⟨(0, 0), .RIGHT, [(0, 0)]⟩ : SnakeState).head_direction ≠ .STOP) ∧
    (Snake.move 5 ⟨(0, 0), .RIGHT, [(0, 0)]⟩).head.1 = 0 + 5 * 1 ∧
    (Snake.move 5 ⟨(0, 0), .RIGHT, [(0, 0)]⟩).head.2 = 0 + 5 * 0 :=
  ⟨by decide,
   ((C5_move_step 5 ⟨(0, 0), .RIGHT, [(0, 0)]⟩).2.1 (by decide)).1,
   ((C5_move_step 5 ⟨(0, 0), .RIGHT, [(0, 0)]⟩).2.1 (by decide)).2.1⟩

/-- In the tick starting from c3_game the collision check fires: the
head moves from (288, 0) to (293, 0), beyond x_max = 290. -/
theorem c3_game_tick_collides :
    SnakeGame.check_collision
      { c3_game with
        snake := Snake.move c3_game.config.move_delta c3_game.snake } = true := by
  have hmv : Snake.move c3_game.config.move_delta c3_game.snake =
      ⟨(293, 0), .RIGHT, []⟩ := by
    rw [move_non_stop _ _ (by decide)]
    norm_num [c3_game, game_config_defaults, unit_delta, Snake.update_tail]
  rw [hmv]
  norm_num [SnakeGame.check_collision, SnakeGame.edge_collision,
    SnakeGame.tail_collision, c3_game, game_config_defaults,
    game_sprite_config_defaults, Int.fdiv]

/-- C3 counterexample: in the tick from c3_game the collision check
returns true and the handler does reset the snake and schedule the next
tick — but the current score stays 5 (it is not reset to 0) and the food
position is untouched (it is not replaced), contradicting the claimed
score reset and food replacement. -/
theorem C3_counterexample :
    SnakeGame.check_collision
      { c3_game with
        snake := Snake.move c3_game.config.move_delta c3_game.snake } = true ∧
    (SnakeGame.update c3_game).1.score = 5 ∧
    (SnakeGame.update c3_game).1.score ≠ 0 ∧
    (SnakeGame.update c3_game).1.food = (100, 100) ∧
    (SnakeGame.update c3_game).1.snake = ⟨(0, 0), .STOP, []⟩ ∧
    (SnakeGame.update c3_game).2 = true := by
  have h1 : (SnakeGame.update c3_game).1 =
      { c3_game with snake := ⟨(0, 0), .STOP, []⟩ } := by
    simp [SnakeGame.update, c3_game_tick_collides, Snake.reset_snake]
  refine ⟨c3_game_tick_collides, ?_, ?_, ?_, ?_, rfl⟩ <;> rw [h1] <;>
    norm_num [c3_game]

/-- C3 amended: in every tick in which the collision check returns true,
the tick handler resets the snake (head to the origin, heading STOP,
segments cleared) and the game continues to the next scheduled step;
the current score and the food are left unchanged (no score reset, no
food replacement happens in game.py's update). -/
theorem C3_amended (g : SnakeGameState)
    (h : SnakeGame.check_collision
      { g with snake := Snake.move g.config.move_delta g.snake } = true) :
    (SnakeGame.update g).1 = { g with snake := ⟨(0, 0), .STOP, []⟩ } ∧
    (SnakeGame.update g).1.score = g.score ∧
    (SnakeGame.update g).1.high_score = g.high_score ∧
    (SnakeGame.update g).1.food = g.food ∧
    (SnakeGame.update g).1.delay = g.delay ∧
    (SnakeGame.update g).2 = true := by
  have h1 : (SnakeGame.update g).1 = { g with snake := ⟨(0, 0), .STOP, []⟩ } := by
    simp [SnakeGame.update, h, Snake.reset_snake]
  exact ⟨h1, by rw [h1], by rw [h1], by rw [h1], by rw [h1], rfl⟩

/-- Witness for C3 at the colliding state c3_game. -/
theorem C3_amended_witness :
    SnakeGame.check_collision
      { c3_game with
        snake := Snake.move c3_game.config.move_delta c3_game.snake } = true ∧
    (SnakeGame.update c3_game).1 = { c3_game with snake := ⟨(0, 0), .STOP, []⟩ } :=
  ⟨c3_game_tick_collides, (C3_amended c3_game c3_game_tick_collides).1⟩
